import Mathlib

/-!
Verification of the configuration layer of consul-replicate (src/config.go).

The embedding models Go pointers as an allocation address paired with the
pointed-to value, so that reference sharing between two Config trees is
visible: two fields hold the same pointer exactly when they hold the same
GoPtr. Operations that allocate (Copy, Merge, Finalize) take an allocator
argument base and hand out the fresh addresses base, base+1, ...; callers
pass a base larger than every address already in use.

Nested stanza types (the consul-template ConsulConfig, SyslogConfig and
WaitConfig, and this repository ExcludeConfigs and PrefixConfigs) are not
part of src/; they are modelled from the spec, as marked on each definition.
-/

/-- A Go pointer: the allocation address together with the pointed-to value.
Two pointer fields are shared by reference exactly when they are equal as
GoPtr values (same address). -/
structure GoPtr (α : Type) where
  addr : Nat
  val : α
  deriving DecidableEq

/-- OS signals (os.Signal) are modelled by their signal number. -/
abbrev Signal := Int

/-- Environment lookup, modelling os.Getenv: an unset variable reads as the
empty string. -/
abbrev Env := String → String

/-- Translated from src/config.go line 25. -/
def DefaultLogLevel : String := "WARN"

/-- Translated from src/config.go line 29: 2 seconds, in nanoseconds. -/
def DefaultMaxStale : Nat := 2000000000

/-- Translated from src/config.go line 32: syscall.SIGHUP. -/
def DefaultReloadSignal : Signal := 1

/-- Translated from src/config.go line 35: syscall.SIGINT. -/
def DefaultKillSignal : Signal := 2

/-- Translated from src/config.go line 38. -/
def DefaultStatusDir : String := "service/consul-replicate/statuses"

/-- Modelled from the spec: the connection stanza (consul-template
ConsulConfig, external to this repository), with representative optional
fields for the address and the access token. -/
structure ConsulConfig where
  address : Option String
  token : Option String
  deriving DecidableEq

/-- Modelled from the spec: Copy of a nested stanza returns an independent
deep copy. The stanza fields are plain values here, so the copied value is
identical; the enclosing Config allocates the fresh instance address. -/
def ConsulConfig.copy (c : ConsulConfig) : ConsulConfig := c

/-- Modelled from the spec: right-biased, field-granular merge of the
connection stanza. -/
def ConsulConfig.merge (c o : ConsulConfig) : ConsulConfig where
  address := match o.address with
    | none => c.address
    | some v => some v
  token := match o.token with
    | none => c.token
    | some v => some v

/-- Modelled from the spec: Finalize fills every absent field of the stanza
with its static default. -/
def ConsulConfig.finalize (c : ConsulConfig) : ConsulConfig where
  address := some (c.address.getD "")
  token := some (c.token.getD "")

/-- Modelled from the spec: the default connection stanza before Finalize. -/
def DefaultConsulConfig : ConsulConfig := { address := none, token := none }

/-- Checks that every field of the stanza is present. -/
def ConsulConfig.allPresent (c : ConsulConfig) : Bool :=
  c.address.isSome && c.token.isSome

/-- Modelled from the spec: the syslog stanza (consul-template SyslogConfig):
an enabled flag and a facility. -/
structure SyslogConfig where
  enabled : Option Bool
  facility : Option String
  deriving DecidableEq

/-- Modelled from the spec: deep copy of the syslog stanza. -/
def SyslogConfig.copy (c : SyslogConfig) : SyslogConfig := c

/-- Modelled from the spec: right-biased, field-granular merge of the syslog
stanza. -/
def SyslogConfig.merge (c o : SyslogConfig) : SyslogConfig where
  enabled := match o.enabled with
    | none => c.enabled
    | some v => some v
  facility := match o.facility with
    | none => c.facility
    | some v => some v

/-- Modelled from the spec: Finalize fills every absent field of the syslog
stanza with its static default. -/
def SyslogConfig.finalize (c : SyslogConfig) : SyslogConfig where
  enabled := some (c.enabled.getD false)
  facility := some (c.facility.getD "LOCAL0")

/-- Modelled from the spec: the default syslog stanza before Finalize. -/
def DefaultSyslogConfig : SyslogConfig := { enabled := none, facility := none }

/-- Checks that every field of the syslog stanza is present. -/
def SyslogConfig.allPresent (c : SyslogConfig) : Bool :=
  c.enabled.isSome && c.facility.isSome

/-- Modelled from the spec: the wait stanza (consul-template WaitConfig):
quiescence timers, in nanoseconds. -/
structure WaitConfig where
  min : Option Nat
  max : Option Nat
  deriving DecidableEq

/-- Modelled from the spec: deep copy of the wait stanza. -/
def WaitConfig.copy (c : WaitConfig) : WaitConfig := c

/-- Modelled from the spec: right-biased, field-granular merge of the wait
stanza. -/
def WaitConfig.merge (c o : WaitConfig) : WaitConfig where
  min := match o.min with
    | none => c.min
    | some v => some v
  max := match o.max with
    | none => c.max
    | some v => some v

/-- Modelled from the spec: Finalize fills every absent field of the wait
stanza with its static default. -/
def WaitConfig.finalize (c : WaitConfig) : WaitConfig where
  min := some (c.min.getD 0)
  max := some (c.max.getD 0)

/-- Modelled from the spec: the default wait stanza before Finalize. -/
def DefaultWaitConfig : WaitConfig := { min := none, max := none }

/-- Checks that every field of the wait stanza is present. -/
def WaitConfig.allPresent (c : WaitConfig) : Bool :=
  c.min.isSome && c.max.isSome

/-- Modelled from the spec: one key-prefix pattern to exclude from
replication (this repository ExcludeConfig; its source is not under src/). -/
structure ExcludeConfig where
  source : Option String
  deriving DecidableEq

/-- Modelled from the spec: the collection of exclude patterns. -/
abbrev ExcludeConfigs := List ExcludeConfig

/-- Modelled from the spec: deep copy of the exclude collection. -/
def ExcludeConfigs.copy (c : ExcludeConfigs) : ExcludeConfigs := c

/-- Modelled from the spec: collection-valued fields are wholesale-replaced,
not element-wise unioned, when the right-hand side is present: the merge of
two exclude collections is a copy of the right-hand side. -/
def ExcludeConfigs.merge (_c o : ExcludeConfigs) : ExcludeConfigs :=
  ExcludeConfigs.copy o

/-- Modelled from the spec: Finalize fills every absent field of every
element. -/
def ExcludeConfigs.finalize (c : ExcludeConfigs) : ExcludeConfigs :=
  c.map (fun e => { source := some (e.source.getD "") })

/-- Modelled from the spec: the default exclude collection is empty. -/
def DefaultExcludeConfigs : ExcludeConfigs := []

/-- Checks that every field of every exclude entry is present. -/
def ExcludeConfigs.allPresent (c : ExcludeConfigs) : Bool :=
  c.all (fun e => e.source.isSome)

/-- Modelled from the spec: one key-prefix replication job (this repository
PrefixConfig; its source is not under src/): a source prefix and an optional
destination remap. -/
structure PrefixConfig where
  source : Option String
  destination : Option String
  deriving DecidableEq

/-- Modelled from the spec: the ordered sequence of prefix jobs. -/
abbrev PrefixConfigs := List PrefixConfig

/-- Modelled from the spec: deep copy of the prefix-job sequence. -/
def PrefixConfigs.copy (c : PrefixConfigs) : PrefixConfigs := c

/-- Modelled from the spec: collection-valued fields are wholesale-replaced
when the right-hand side is present. -/
def PrefixConfigs.merge (_c o : PrefixConfigs) : PrefixConfigs :=
  PrefixConfigs.copy o

/-- Modelled from the spec: Finalize fills every absent field of every job;
an absent destination defaults to the source prefix. -/
def PrefixConfigs.finalize (c : PrefixConfigs) : PrefixConfigs :=
  c.map (fun p =>
    { source := some (p.source.getD "")
      destination := some (p.destination.getD (p.source.getD "")) })

/-- Modelled from the spec: the default prefix-job sequence is empty. -/
def DefaultPrefixConfigs : PrefixConfigs := []

/-- Checks that every field of every prefix job is present. -/
def PrefixConfigs.allPresent (c : PrefixConfigs) : Bool :=
  c.all (fun p => p.source.isSome && p.destination.isSome)

/-- Translated from the Config struct, src/config.go lines 42 to 80. Every
field is a nilable Go pointer, modelled as an optional GoPtr. Note that the
struct declares both Consul and DestinationConsul with the same mapstructure
key, consul (lines 44 and 46). -/
structure Config where
  consul : Option (GoPtr ConsulConfig)
  destinationConsul : Option (GoPtr ConsulConfig)
  excludes : Option (GoPtr ExcludeConfigs)
  killSignal : Option (GoPtr Signal)
  logLevel : Option (GoPtr String)
  maxStale : Option (GoPtr Nat)
  pidFile : Option (GoPtr String)
  prefixes : Option (GoPtr PrefixConfigs)
  reloadSignal : Option (GoPtr Signal)
  statusDir : Option (GoPtr String)
  syslog : Option (GoPtr SyslogConfig)
  wait : Option (GoPtr WaitConfig)
  deriving DecidableEq

/-- All pointer addresses currently reachable from a Config. -/
def Config.addrs (c : Config) : List Nat :=
  (c.consul.map GoPtr.addr).toList ++
  (c.destinationConsul.map GoPtr.addr).toList ++
  (c.excludes.map GoPtr.addr).toList ++
  (c.killSignal.map GoPtr.addr).toList ++
  (c.logLevel.map GoPtr.addr).toList ++
  (c.maxStale.map GoPtr.addr).toList ++
  (c.pidFile.map GoPtr.addr).toList ++
  (c.prefixes.map GoPtr.addr).toList ++
  (c.reloadSignal.map GoPtr.addr).toList ++
  (c.statusDir.map GoPtr.addr).toList ++
  (c.syslog.map GoPtr.addr).toList ++
  (c.wait.map GoPtr.addr).toList

/-- Translated from the body of Config.Copy, src/config.go lines 84 to 120
(the body run for a non-nil receiver). The five non-nil nested stanzas are
copied into freshly allocated instances (addresses base to base+4); the six
scalar pointer fields are copied as pointers, exactly as in the source
(o.KillSignal = c.KillSignal and so on), so the copy holds the same GoPtr.
The local var o Config starts zeroed and the body never assigns
DestinationConsul, so the copy has none there. -/
def Config.copy (c : Config) (base : Nat) : Config where
  consul := c.consul.map (fun p => GoPtr.mk base (ConsulConfig.copy p.val))
  destinationConsul := none
  excludes := c.excludes.map (fun p => GoPtr.mk (base + 1) (ExcludeConfigs.copy p.val))
  killSignal := c.killSignal
  logLevel := c.logLevel
  maxStale := c.maxStale
  pidFile := c.pidFile
  prefixes := c.prefixes.map (fun p => GoPtr.mk (base + 2) (PrefixConfigs.copy p.val))
  reloadSignal := c.reloadSignal
  statusDir := c.statusDir
  syslog := c.syslog.map (fun p => GoPtr.mk (base + 3) (SyslogConfig.copy p.val))
  wait := c.wait.map (fun p => GoPtr.mk (base + 4) (WaitConfig.copy p.val))

/-- Translated from the body of Config.Merge after the nil checks,
src/config.go lines 134 to 180: r := c.Copy() with allocator base, then each
field present in o overwrites. Scalar pointer fields take the pointer of o;
each nested stanza present in o is merged through the nested Merge, which
returns a freshly allocated result (addresses base+5 to base+9); a nested
Merge on a nil left-hand side returns a copy of the right-hand side.
DestinationConsul is never assigned, so it stays none (from the copy). -/
def Config.merge (c o : Config) (base : Nat) : Config :=
  let r := c.copy base
  { consul := match o.consul with
      | none => r.consul
      | some op => some (GoPtr.mk (base + 5)
          (match r.consul with
           | none => ConsulConfig.copy op.val
           | some rp => ConsulConfig.merge rp.val op.val))
    destinationConsul := r.destinationConsul
    excludes := match o.excludes with
      | none => r.excludes
      | some op => some (GoPtr.mk (base + 6)
          (match r.excludes with
           | none => ExcludeConfigs.copy op.val
           | some rp => ExcludeConfigs.merge rp.val op.val))
    killSignal := match o.killSignal with
      | none => r.killSignal
      | some p => some p
    logLevel := match o.logLevel with
      | none => r.logLevel
      | some p => some p
    maxStale := match o.maxStale with
      | none => r.maxStale
      | some p => some p
    pidFile := match o.pidFile with
      | none => r.pidFile
      | some p => some p
    prefixes := match o.prefixes with
      | none => r.prefixes
      | some op => some (GoPtr.mk (base + 7)
          (match r.prefixes with
           | none => PrefixConfigs.copy op.val
           | some rp => PrefixConfigs.merge rp.val op.val))
    reloadSignal := match o.reloadSignal with
      | none => r.reloadSignal
      | some p => some p
    statusDir := match o.statusDir with
      | none => r.statusDir
      | some p => some p
    syslog := match o.syslog with
      | none => r.syslog
      | some op => some (GoPtr.mk (base + 8)
          (match r.syslog with
           | none => SyslogConfig.copy op.val
           | some rp => SyslogConfig.merge rp.val op.val))
    wait := match o.wait with
      | none => r.wait
      | some op => some (GoPtr.mk (base + 9)
          (match r.wait with
           | none => WaitConfig.copy op.val
           | some rp => WaitConfig.merge rp.val op.val)) }

/-- A Go pointer to a Config value, as handled by the Copy and Merge
methods. -/
abbrev ConfigRef := GoPtr Config

/-- The Go runtime panic message raised by dereferencing a nil pointer. -/
def nilDereferenceMsg : String :=
  "runtime error: invalid memory address or nil pointer dereference"

/-- Translated from Config.Copy, src/config.go lines 84 to 120, at the level
of the receiver pointer. The body has no nil-receiver guard (unlike Merge)
and reads c.Consul right after var o Config, so a call on a nil receiver
dereferences the nil pointer: a Go runtime panic, modelled as Except.error.
A non-nil receiver returns a pointer to a freshly allocated struct. -/
def Config.copyP : Option ConfigRef → Nat → Except String (Option ConfigRef)
  | none, _ => Except.error nilDereferenceMsg
  | some p, base => Except.ok (some (GoPtr.mk base (p.val.copy (base + 1))))

/-- Translated from Config.Merge, src/config.go lines 122 to 181, at the
level of the receiver pointer: a nil receiver with a nil argument returns
nil; a nil receiver with a non-nil argument returns a copy of the argument;
a non-nil receiver with a nil argument returns a copy of the receiver; and
otherwise the merged result is a freshly allocated struct. -/
def Config.mergeP : Option ConfigRef → Option ConfigRef → Nat → Except String (Option ConfigRef)
  | none, none, _ => Except.ok none
  | none, some op, base => Config.copyP (some op) base
  | some cp, none, base => Config.copyP (some cp) base
  | some cp, some op, base => Except.ok (some (GoPtr.mk base (cp.val.merge op.val (base + 1))))

/-- Models strings.TrimSpace: drops leading and trailing whitespace
characters (defined over the character list so that it evaluates in the
kernel). -/
def goTrimSpace (s : String) : String :=
  String.mk (((s.data.dropWhile Char.isWhitespace).reverse.dropWhile
    Char.isWhitespace).reverse)

/-- Translated from stringFromEnv, src/config.go lines 510 to 517: the first
environment variable in the list whose raw value is non-empty supplies the
result, whitespace-trimmed; otherwise the given default. -/
def stringFromEnv (list : List String) (dflt : String) (env : Env) : String :=
  match list with
  | [] => dflt
  | s :: rest =>
    if env s ≠ "" then goTrimSpace (env s) else stringFromEnv rest dflt env

/-- Translated from Config.Finalize, src/config.go lines 235 to 291 (the
body run for a non-nil receiver; in-place mutation is modelled by returning
the updated Config). Every absent field is filled with its default (the
pointers the defaults allocate get the fresh addresses base to base+10);
already-present fields keep their pointer, with nested stanzas finalized in
place. The LogLevel default consults the CR_LOG and CONSUL_REPLICATE_LOG
environment variables. The body never mentions DestinationConsul. -/
def Config.finalize (c : Config) (env : Env) (base : Nat) : Config where
  consul := match c.consul with
    | none => some (GoPtr.mk base (ConsulConfig.finalize DefaultConsulConfig))
    | some p => some (GoPtr.mk p.addr (ConsulConfig.finalize p.val))
  destinationConsul := c.destinationConsul
  excludes := match c.excludes with
    | none => some (GoPtr.mk (base + 1) (ExcludeConfigs.finalize DefaultExcludeConfigs))
    | some p => some (GoPtr.mk p.addr (ExcludeConfigs.finalize p.val))
  killSignal := match c.killSignal with
    | none => some (GoPtr.mk (base + 2) DefaultKillSignal)
    | some p => some p
  logLevel := match c.logLevel with
    | none => some (GoPtr.mk (base + 3)
        (stringFromEnv ["CR_LOG", "CONSUL_REPLICATE_LOG"] DefaultLogLevel env))
    | some p => some p
  maxStale := match c.maxStale with
    | none => some (GoPtr.mk (base + 4) DefaultMaxStale)
    | some p => some p
  pidFile := match c.pidFile with
    | none => some (GoPtr.mk (base + 5) "")
    | some p => some p
  prefixes := match c.prefixes with
    | none => some (GoPtr.mk (base + 6) (PrefixConfigs.finalize DefaultPrefixConfigs))
    | some p => some (GoPtr.mk p.addr (PrefixConfigs.finalize p.val))
  reloadSignal := match c.reloadSignal with
    | none => some (GoPtr.mk (base + 7) DefaultReloadSignal)
    | some p => some p
  statusDir := match c.statusDir with
    | none => some (GoPtr.mk (base + 8) DefaultStatusDir)
    | some p => some p
  syslog := match c.syslog with
    | none => some (GoPtr.mk (base + 9) (SyslogConfig.finalize DefaultSyslogConfig))
    | some p => some (GoPtr.mk p.addr (SyslogConfig.finalize p.val))
  wait := match c.wait with
    | none => some (GoPtr.mk (base + 10) (WaitConfig.finalize DefaultWaitConfig))
    | some p => some (GoPtr.mk p.addr (WaitConfig.finalize p.val))

/-- Option check used by the presence predicate below. -/
def optHolds {α : Type} (o : Option (GoPtr α)) (p : α → Bool) : Bool :=
  match o with
  | none => false
  | some g => p g.val

/-- Checks that the eleven fields Finalize is responsible for are present,
and that every field of every nested stanza is present. DestinationConsul
is deliberately not included (the source never touches it). -/
def Config.isFullyPresent (c : Config) : Bool :=
  optHolds c.consul ConsulConfig.allPresent &&
  optHolds c.excludes ExcludeConfigs.allPresent &&
  c.killSignal.isSome &&
  c.logLevel.isSome &&
  c.maxStale.isSome &&
  c.pidFile.isSome &&
  optHolds c.prefixes PrefixConfigs.allPresent &&
  c.reloadSignal.isSome &&
  c.statusDir.isSome &&
  optHolds c.syslog SyslogConfig.allPresent &&
  optHolds c.wait WaitConfig.allPresent

/-- The zero value of the Config struct: every pointer field nil. -/
def emptyConfig : Config where
  consul := none
  destinationConsul := none
  excludes := none
  killSignal := none
  logLevel := none
  maxStale := none
  pidFile := none
  prefixes := none
  reloadSignal := none
  statusDir := none
  syslog := none
  wait := none

/-- An environment in which no variable is set. -/
def envEmpty : Env := fun _ => ""

/-- The fields of the Config struct, src/config.go lines 42 to 80. -/
inductive ConfigField : Type where
  | consul
  | destinationConsul
  | excludes
  | killSignal
  | logLevel
  | maxStale
  | pidFile
  | prefixes
  | reloadSignal
  | statusDir
  | syslog
  | wait
  deriving DecidableEq

/-- Translated from the mapstructure struct tags of Config, src/config.go
lines 42 to 80. Consul (line 44) and DestinationConsul (line 46) carry the
same key. -/
def mapstructureKey : ConfigField → String
  | .consul => "consul"
  | .destinationConsul => "consul"
  | .excludes => "exclude"
  | .killSignal => "kill_signal"
  | .logLevel => "log_level"
  | .maxStale => "max_stale"
  | .pidFile => "pid_file"
  | .prefixes => "prefix"
  | .reloadSignal => "reload_signal"
  | .statusDir => "status_dir"
  | .syslog => "syslog"
  | .wait => "wait"

/-! The generic decode tree. hcl.Decode produces a dynamically typed nested
value; Parse (src/config.go lines 294 to 416) requires the root to be a
mapping and then rewrites it with flattenKeys and the deprecation steps
before handing it to the mapstructure decoder. The three shapes the source
distinguishes by type switch are scalars, a mapping, and a sequence of
mappings (the HCL encoding of repeated blocks). -/

mutual
/-- A generic decoded value (a Go interface value produced by hcl.Decode). -/
inductive GVal : Type where
  | str : String → GVal
  | num : Int → GVal
  | boolV : Bool → GVal
  | null : GVal
  | obj : GMap → GVal
  | objList : GMapSeq → GVal

/-- A generic mapping (a Go map from string to interface), as an association
list of key and value pairs. -/
inductive GMap : Type where
  | nil : GMap
  | cons : String → GVal → GMap → GMap

/-- A sequence of mappings (a Go slice of maps, the HCL shape of repeated
blocks). -/
inductive GMapSeq : Type where
  | nil : GMapSeq
  | cons : GMap → GMapSeq → GMapSeq
end

/-- Mapping lookup: the value stored at a key, if present. -/
def GMap.lookup : GMap → String → Option GVal
  | .nil, _ => none
  | .cons k v rest, key => if k = key then some v else rest.lookup key

/-- Go map assignment m[k] = v: replaces the binding if the key is present,
otherwise adds it. -/
def GMap.set : GMap → String → GVal → GMap
  | .nil, key, v => .cons key v .nil
  | .cons k w rest, key, v =>
    if k = key then .cons k v rest else .cons k w (rest.set key v)

/-- Go delete(m, k): removes the binding for the key. -/
def GMap.erase : GMap → String → GMap
  | .nil, _ => .nil
  | .cons k w rest, key =>
    if k = key then rest.erase key else .cons k w (rest.erase key)

/-- The keys of a mapping, in order. -/
def GMap.keys : GMap → List String
  | .nil => []
  | .cons k _ rest => k :: rest.keys

/-- The last element of a sequence of mappings, if any. -/
def GMapSeq.getLast? : GMapSeq → Option GMap
  | .nil => none
  | .cons m rest =>
    match rest.getLast? with
    | some l => some l
    | none => some m

/-- The dotted map key: the key itself at the top level, otherwise
parent.key. Translated from the mapKey computation in flattenKeys,
src/config.go lines 531 to 535. -/
def mapKeyOf (parent k : String) : String :=
  if parent = "" then k else parent ++ "." ++ k

mutual
/-- Translated from the inner flatten closure of flattenKeys, src/config.go
lines 528 to 557: every entry whose dotted key is in the key set has its
value rewritten by the type switch (see flattenEntry); all other entries
pass through unchanged. -/
def flattenMapGo (keys : List String) (parent : String) : GMap → GMap
  | .nil => .nil
  | .cons k v rest =>
    let mk := mapKeyOf parent k
    let v' := if mk ∈ keys then flattenEntry keys mk v else v
    .cons k v' (flattenMapGo keys parent rest)
termination_by structural m => m

/-- Translated from the type switch of flattenKeys, src/config.go lines 541
to 555: a non-empty sequence of mappings is replaced by its flattened last
element; an empty sequence is replaced by nil (the explicit absence marker);
a mapping is recursed into in place; any other value is left unchanged. -/
def flattenEntry (keys : List String) (mk : String) : GVal → GVal
  | .objList ms =>
    match flattenSeqLast keys mk ms with
    | some m => .obj m
    | none => .null
  | .obj t => .obj (flattenMapGo keys mk t)
  | v => v
termination_by structural v => v

/-- The flattened last element of a sequence of mappings (none when the
sequence is empty): only the last element is recursed into, matching
src/config.go lines 543 to 546. -/
def flattenSeqLast (keys : List String) (mk : String) : GMapSeq → Option GMap
  | .nil => none
  | .cons m rest =>
    match flattenSeqLast keys mk rest with
    | some m' => some m'
    | none => some (flattenMapGo keys mk m)
termination_by structural s => s
end

/-- Translated from flattenKeys, src/config.go lines 522 to 560: flatten the
given dotted keys of the mapping, starting with the empty parent. -/
def flattenKeys (m : GMap) (keys : List String) : GMap :=
  flattenMapGo keys "" m

/-- The fixed set of nested-stanza key paths flattened by Parse,
src/config.go lines 306 to 314. -/
def flattenTargets : List String :=
  ["consul", "consul.auth", "consul.retry", "consul.ssl", "consul.transport",
   "syslog", "wait"]

/-- One compatibility warning per deprecated construct encountered by Parse,
src/config.go lines 322 to 385. -/
inductive Warning : Type where
  | auth
  | path
  | retry
  | ssl
  | token
  deriving DecidableEq

/-- Translated from the consul sub-map extraction repeated in the
deprecation steps of Parse (for example src/config.go lines 326 to 329): the
value under consul if it is a mapping, otherwise a fresh empty mapping. -/
def consulChildOf (parsed : GMap) : GMap :=
  match parsed.lookup "consul" with
  | some (.obj m) => m
  | _ => GMap.nil

/-- Translated from Parse, src/config.go lines 322 to 333: a deprecated
top-level auth stanza is moved under consul and the old key deleted, with
one warning. -/
def authStep (parsed : GMap) : GMap × List Warning :=
  match parsed.lookup "auth" with
  | some auth =>
    (((parsed.set "consul" (GVal.obj ((consulChildOf parsed).set "auth" auth)))).erase "auth",
     [Warning.auth])
  | none => (parsed, [])

/-- Translated from Parse, src/config.go lines 334 to 338: a stray top-level
path key is dropped with a warning. -/
def pathStep (parsed : GMap) : GMap × List Warning :=
  match parsed.lookup "path" with
  | some _ => (parsed.erase "path", [Warning.path])
  | none => (parsed, [])

/-- Translated from Parse, src/config.go lines 339 to 358: a deprecated
top-level retry value is relocated under consul as a retry mapping whose
backoff and max_backoff entries both hold the legacy value, and the old
top-level key is deleted, with one warning. -/
def retryStep (parsed : GMap) : GMap × List Warning :=
  match parsed.lookup "retry" with
  | some retry =>
    (((parsed.set "consul"
        (GVal.obj ((consulChildOf parsed).set "retry"
          (GVal.obj (GMap.cons "backoff" retry
            (GMap.cons "max_backoff" retry GMap.nil))))))).erase "retry",
     [Warning.retry])
  | none => (parsed, [])

/-- Translated from Parse, src/config.go lines 359 to 373: a deprecated
top-level ssl stanza is moved under consul and the old key deleted, with one
warning. -/
def sslStep (parsed : GMap) : GMap × List Warning :=
  match parsed.lookup "ssl" with
  | some ssl =>
    (((parsed.set "consul" (GVal.obj ((consulChildOf parsed).set "ssl" ssl)))).erase "ssl",
     [Warning.ssl])
  | none => (parsed, [])

/-- Translated from Parse, src/config.go lines 374 to 385: a deprecated
top-level token value is moved under consul and the old key deleted, with
one warning. -/
def tokenStep (parsed : GMap) : GMap × List Warning :=
  match parsed.lookup "token" with
  | some token =>
    (((parsed.set "consul" (GVal.obj ((consulChildOf parsed).set "token" token)))).erase "token",
     [Warning.token])
  | none => (parsed, [])

/-- The normalization portion of Parse, src/config.go lines 306 to 385: the
two flattening passes followed by the five deprecation steps, in source
order, collecting the emitted warnings. -/
def parseNormalize (parsed0 : GMap) : GMap × List Warning :=
  let p := flattenKeys (flattenKeys parsed0 flattenTargets) ["auth", "ssl"]
  let s1 := authStep p
  let s2 := pathStep s1.1
  let s3 := retryStep s2.1
  let s4 := sslStep s3.1
  let s5 := tokenStep s4.1
  (s5.1, s1.2 ++ s2.2 ++ s3.2 ++ s4.2 ++ s5.2)

/-- The mapstructure keys of the destination fields of the typed Config,
from the struct tags in src/config.go lines 42 to 80 (consul appears for
both the Consul and the DestinationConsul field). -/
def configKeys : List String :=
  ["consul", "exclude", "kill_signal", "log_level", "max_stale", "pid_file",
   "prefix", "reload_signal", "status_dir", "syslog", "wait"]

/-- Modelled from the spec: the known keys of the connection stanza (the
consul-template ConsulConfig is external to this repository): address,
credentials, retry policy, TLS and transport sub-stanzas, and token. -/
def consulStanzaKeys : List String :=
  ["address", "auth", "retry", "ssl", "token", "transport"]

/-- Modelled from the spec: the known keys of the syslog stanza. -/
def syslogStanzaKeys : List String := ["enabled", "facility"]

/-- Modelled from the spec: the known keys of the wait stanza. -/
def waitStanzaKeys : List String := ["enabled", "min", "max"]

/-- The known child keys for the nested stanza fields of Config that are
bound as structures. -/
def nestedFieldKeys : String → Option (List String)
  | "consul" => some consulStanzaKeys
  | "syslog" => some syslogStanzaKeys
  | "wait" => some waitStanzaKeys
  | _ => none

/-- Unknown keys inside a nested stanza mapping, as dotted paths. -/
def unusedNested (ks : List String) (parentKey : String) : GMap → List String
  | .nil => []
  | .cons k _ rest =>
    if k ∈ ks then unusedNested ks parentKey rest
    else (parentKey ++ "." ++ k) :: unusedNested ks parentKey rest

/-- The keys of the mapping that do not correspond to a known destination
field of the typed Config, at the top level and inside the structured
nested stanzas. -/
def unusedKeys : GMap → List String
  | .nil => []
  | .cons k v rest =>
    if k ∈ configKeys then
      (match nestedFieldKeys k with
       | some ks =>
         match v with
         | GVal.obj sub => unusedNested ks k sub
         | _ => []
       | none => []) ++ unusedKeys rest
    else k :: unusedKeys rest

/-- Models the mapstructure decode of Parse, src/config.go lines 390 to 413,
restricted to its strict unknown-key behaviour: the decoder is built with
ErrorUnused true, so decoding fails, naming every unused key, whenever the
mapping holds a key with no matching destination field; the value
conversions themselves are outside the scope of this model. -/
def bindConfig (m : GMap) : Except (List String) Unit :=
  match unusedKeys m with
  | [] => Except.ok ()
  | k :: rest => Except.error (k :: rest)

/-- The Parse pipeline on an already-decoded root mapping, src/config.go
lines 294 to 416: normalization (flattening and deprecation rewrites)
followed by the strict mapstructure bind; on success the normalized mapping
and the emitted warnings are returned. -/
def ParseModel (m : GMap) : Except (List String) (GMap × List Warning) :=
  match bindConfig (parseNormalize m).1 with
  | Except.ok _ => Except.ok (parseNormalize m)
  | Except.error e => Except.error e

/-- True when the computation succeeded. -/
def exceptIsOk {ε α : Type} : Except ε α → Bool
  | Except.ok _ => true
  | Except.error _ => false

/-! Concrete inputs used by the witnesses and counterexamples below. -/

/-- Probe: the string stored at consul.retry.backoff, when the consul and
retry values are mappings. Used to observe that flattening rewrites the
inside of a mapping value. -/
def probeConsulRetryBackoff (m : GMap) : Option String :=
  match m.lookup "consul" with
  | some (.obj cm) =>
    match cm.lookup "retry" with
    | some (.obj rm) =>
      match rm.lookup "backoff" with
      | some (.str s) => some s
      | _ => none
    | _ => none
  | _ => none

/-- A first retry block, backoff 1s. -/
def retryBlockOne : GMap := GMap.cons "backoff" (GVal.str "1s") GMap.nil

/-- A second retry block, backoff 2s. -/
def retryBlockTwo : GMap := GMap.cons "backoff" (GVal.str "2s") GMap.nil

/-- A repeated retry block: the sequence of the two blocks above. -/
def retrySeqTwo : GMapSeq :=
  GMapSeq.cons retryBlockOne (GMapSeq.cons retryBlockTwo GMapSeq.nil)

/-- A mapping whose consul value is itself a mapping that holds a repeated
retry block. -/
def mapConsulObj : GMap :=
  GMap.cons "consul" (GVal.obj (GMap.cons "retry" (GVal.objList retrySeqTwo) GMap.nil)) GMap.nil

/-- A mapping with the single unknown top-level key bogus. -/
def bogusMap : GMap := GMap.cons "bogus" (GVal.num 1) GMap.nil

/-- A mapping with the single deprecated top-level key retry. -/
def retryOnlyMap : GMap := GMap.cons "retry" (GVal.str "5m") GMap.nil

/-- A mapping with a deprecated top-level retry key, used as a concrete
relocation witness. -/
def retryWitnessMap : GMap := GMap.cons "retry" (GVal.str "30s") GMap.nil

/-- A Config with a nested stanza present at address 3 and a scalar pointer
field present at address 7. -/
def cfgShared : Config :=
  { emptyConfig with
      consul := some (GoPtr.mk 3 DefaultConsulConfig)
      logLevel := some (GoPtr.mk 7 "INFO") }

/-- A merge left-hand side with a connection stanza and a log level. -/
def cfgA3 : Config :=
  { emptyConfig with
      consul := some (GoPtr.mk 0 { address := some "a:8500", token := none })
      logLevel := some (GoPtr.mk 1 "INFO") }

/-- A merge right-hand side with a connection stanza, a kill signal and a
DestinationConsul instance. -/
def cfgB3 : Config :=
  { emptyConfig with
      consul := some (GoPtr.mk 2 { address := none, token := some "t" })
      destinationConsul := some (GoPtr.mk 9 DefaultConsulConfig)
      killSignal := some (GoPtr.mk 4 (15 : Signal)) }

/-- A pointer to the zero Config, at address 0. -/
def refA4 : ConfigRef := GoPtr.mk 0 emptyConfig

/-- A pointer, at address 1, to a Config with a kill signal and a
DestinationConsul instance present. -/
def refB4 : ConfigRef :=
  GoPtr.mk 1
    { emptyConfig with
        killSignal := some (GoPtr.mk 5 (2 : Signal))
        destinationConsul := some (GoPtr.mk 9 DefaultConsulConfig) }

/-- An environment where CR_LOG is set to DEBUG with surrounding
whitespace and every other variable is unset. -/
def envDebugPadded : Env := fun s => if s = "CR_LOG" then " DEBUG " else ""

/-! Helper lemmas. -/

/-- Induction principle for generic mappings (the mutual recursor of the
generic tree specialised to a property of mappings). -/
theorem gmapInductionOn {P : GMap → Prop} (m : GMap) (nil : P GMap.nil)
    (cons : ∀ k v rest, P rest → P (GMap.cons k v rest)) : P m :=
  match m with
  | GMap.nil => nil
  | GMap.cons k v rest => cons k v rest (gmapInductionOn rest nil cons)
termination_by structural m

/-- Induction principle for sequences of mappings. -/
theorem gmapSeqInductionOn {P : GMapSeq → Prop} (s : GMapSeq) (nil : P GMapSeq.nil)
    (cons : ∀ m rest, P rest → P (GMapSeq.cons m rest)) : P s :=
  match s with
  | GMapSeq.nil => nil
  | GMapSeq.cons m rest => cons m rest (gmapSeqInductionOn rest nil cons)
termination_by structural s

theorem GMap.lookup_set_self (m : GMap) (k : String) (v : GVal) :
    (m.set k v).lookup k = some v := by
  induction m using gmapInductionOn with
  | nil => simp [GMap.set, GMap.lookup]
  | cons a w rest ih =>
    by_cases h : a = k
    · subst h
      simp [GMap.set, GMap.lookup]
    · simp [GMap.set, GMap.lookup, h, ih]

theorem GMap.lookup_set_ne (m : GMap) (key k : String) (v : GVal) (h : key ≠ k) :
    (m.set key v).lookup k = m.lookup k := by
  induction m using gmapInductionOn with
  | nil => simp [GMap.set, GMap.lookup, h]
  | cons a w rest ih =>
    by_cases ha : a = key
    · subst ha
      simp [GMap.set, GMap.lookup, h]
    · simp only [GMap.set, if_neg ha]
      by_cases hb : a = k
      · simp [GMap.lookup, hb]
      · simp [GMap.lookup, hb, ih]

theorem GMap.lookup_erase_self (m : GMap) (k : String) :
    (m.erase k).lookup k = none := by
  induction m using gmapInductionOn with
  | nil => simp [GMap.erase, GMap.lookup]
  | cons a w rest ih =>
    by_cases h : a = k
    · simp [GMap.erase, h, ih]
    · simp [GMap.erase, GMap.lookup, h, ih]

theorem GMap.lookup_erase_ne (m : GMap) (key k : String) (h : key ≠ k) :
    (m.erase key).lookup k = m.lookup k := by
  induction m using gmapInductionOn with
  | nil => simp [GMap.erase, GMap.lookup]
  | cons a w rest ih =>
    by_cases ha : a = key
    · subst ha
      simp [GMap.erase, GMap.lookup, ih, h]
    · simp only [GMap.erase, if_neg ha]
      by_cases hb : a = k
      · simp [GMap.lookup, hb]
      · simp [GMap.lookup, hb, ih]

theorem mapKeyOf_top (k : String) : mapKeyOf "" k = k := by
  simp [mapKeyOf]

theorem flattenMapGo_keys (keys : List String) (parent : String) (m : GMap) :
    (flattenMapGo keys parent m).keys = m.keys := by
  induction m using gmapInductionOn with
  | nil => rfl
  | cons a v rest ih => simp [flattenMapGo, GMap.keys, ih]

theorem flattenMapGo_lookup_notMem (keys : List String) (parent : String)
    (m : GMap) (k : String) (h : mapKeyOf parent k ∉ keys) :
    (flattenMapGo keys parent m).lookup k = m.lookup k := by
  induction m using gmapInductionOn with
  | nil => rfl
  | cons a v rest ih =>
    simp only [flattenMapGo]
    by_cases ha : a = k
    · subst ha
      simp [GMap.lookup, if_neg h]
    · simp [GMap.lookup, ha, ih]

theorem flattenSeqLast_eq (keys : List String) (mk : String) (s : GMapSeq) :
    flattenSeqLast keys mk s = s.getLast?.map (flattenMapGo keys mk) := by
  induction s using gmapSeqInductionOn with
  | nil => rfl
  | cons m rest ih =>
    simp only [flattenSeqLast, GMapSeq.getLast?, ih]
    cases rest.getLast? <;> simp

theorem authStep_lookup (m : GMap) (k : String) (h1 : k ≠ "auth")
    (h2 : k ≠ "consul") : (authStep m).1.lookup k = m.lookup k := by
  unfold authStep
  cases hm : m.lookup "auth" with
  | none => rfl
  | some auth =>
    simp only []
    rw [GMap.lookup_erase_ne _ _ _ (fun hk => h1 hk.symm),
      GMap.lookup_set_ne _ _ _ _ (fun hk => h2 hk.symm)]

theorem pathStep_lookup (m : GMap) (k : String) (h1 : k ≠ "path") :
    (pathStep m).1.lookup k = m.lookup k := by
  unfold pathStep
  cases hm : m.lookup "path" with
  | none => rfl
  | some v =>
    simp only []
    rw [GMap.lookup_erase_ne _ _ _ (fun hk => h1 hk.symm)]

theorem retryStep_fires (m : GMap) (v : GVal) (h : m.lookup "retry" = some v) :
    (retryStep m).1.lookup "retry" = none ∧
    (retryStep m).1.lookup "consul" =
      some (GVal.obj ((consulChildOf m).set "retry"
        (GVal.obj (GMap.cons "backoff" v (GMap.cons "max_backoff" v GMap.nil))))) ∧
    (retryStep m).2 = [Warning.retry] := by
  unfold retryStep
  rw [h]
  refine ⟨GMap.lookup_erase_self _ _, ?_, rfl⟩
  rw [GMap.lookup_erase_ne _ _ _ (by decide), GMap.lookup_set_self]

theorem sslStep_lookup_retry (m : GMap) :
    (sslStep m).1.lookup "retry" = m.lookup "retry" := by
  unfold sslStep
  cases hm : m.lookup "ssl" with
  | none => rfl
  | some v =>
    simp only []
    rw [GMap.lookup_erase_ne _ _ _ (by decide),
      GMap.lookup_set_ne _ _ _ _ (by decide)]

theorem sslStep_consul_retry (m cm : GMap) (r : GVal)
    (hc : m.lookup "consul" = some (GVal.obj cm))
    (hr : cm.lookup "retry" = some r) :
    ∃ cm', (sslStep m).1.lookup "consul" = some (GVal.obj cm') ∧
      cm'.lookup "retry" = some r := by
  unfold sslStep
  cases hm : m.lookup "ssl" with
  | none => exact ⟨cm, hc, hr⟩
  | some v =>
    refine ⟨(consulChildOf m).set "ssl" v, ?_, ?_⟩
    · simp only []
      rw [GMap.lookup_erase_ne _ _ _ (by decide), GMap.lookup_set_self]
    · have hcc : consulChildOf m = cm := by simp [consulChildOf, hc]
      rw [hcc, GMap.lookup_set_ne _ _ _ _ (by decide)]
      exact hr

theorem tokenStep_lookup_retry (m : GMap) :
    (tokenStep m).1.lookup "retry" = m.lookup "retry" := by
  unfold tokenStep
  cases hm : m.lookup "token" with
  | none => rfl
  | some v =>
    simp only []
    rw [GMap.lookup_erase_ne _ _ _ (by decide),
      GMap.lookup_set_ne _ _ _ _ (by decide)]

theorem tokenStep_consul_retry (m cm : GMap) (r : GVal)
    (hc : m.lookup "consul" = some (GVal.obj cm))
    (hr : cm.lookup "retry" = some r) :
    ∃ cm', (tokenStep m).1.lookup "consul" = some (GVal.obj cm') ∧
      cm'.lookup "retry" = some r := by
  unfold tokenStep
  cases hm : m.lookup "token" with
  | none => exact ⟨cm, hc, hr⟩
  | some v =>
    refine ⟨(consulChildOf m).set "token" v, ?_, ?_⟩
    · simp only []
      rw [GMap.lookup_erase_ne _ _ _ (by decide), GMap.lookup_set_self]
    · have hcc : consulChildOf m = cm := by simp [consulChildOf, hc]
      rw [hcc, GMap.lookup_set_ne _ _ _ _ (by decide)]
      exact hr

theorem authStep_count_retry (m : GMap) :
    ((authStep m).2).count Warning.retry = 0 := by
  unfold authStep
  cases m.lookup "auth" <;> simp

theorem pathStep_count_retry (m : GMap) :
    ((pathStep m).2).count Warning.retry = 0 := by
  unfold pathStep
  cases m.lookup "path" <;> simp

theorem sslStep_count_retry (m : GMap) :
    ((sslStep m).2).count Warning.retry = 0 := by
  unfold sslStep
  cases m.lookup "ssl" <;> simp

theorem tokenStep_count_retry (m : GMap) :
    ((tokenStep m).2).count Warning.retry = 0 := by
  unfold tokenStep
  cases m.lookup "token" <;> simp

theorem mem_unusedKeys (m : GMap) (k : String) (v : GVal)
    (hl : m.lookup k = some v) (hk : k ∉ configKeys) : k ∈ unusedKeys m := by
  induction m using gmapInductionOn with
  | nil => simp [GMap.lookup] at hl
  | cons a w rest ih =>
    by_cases ha : a = k
    · subst ha
      simp [unusedKeys, if_neg hk]
    · rw [GMap.lookup, if_neg ha] at hl
      unfold unusedKeys
      by_cases hc : a ∈ configKeys
      · rw [if_pos hc]
        exact List.mem_append_right _ (ih hl)
      · rw [if_neg hc]
        exact List.mem_cons_of_mem _ (ih hl)

theorem bindConfig_error_of_mem (m : GMap) (k : String)
    (h : k ∈ unusedKeys m) :
    ∃ ks, bindConfig m = Except.error ks ∧ k ∈ ks := by
  unfold bindConfig
  cases hu : unusedKeys m with
  | nil => rw [hu] at h; simp at h
  | cons a rest =>
    rw [hu] at h
    exact ⟨a :: rest, rfl, h⟩

theorem consulFinalize_allPresent (c : ConsulConfig) :
    (ConsulConfig.finalize c).allPresent = true := by
  simp [ConsulConfig.finalize, ConsulConfig.allPresent]

theorem syslogFinalize_allPresent (c : SyslogConfig) :
    (SyslogConfig.finalize c).allPresent = true := by
  simp [SyslogConfig.finalize, SyslogConfig.allPresent]

theorem waitFinalize_allPresent (c : WaitConfig) :
    (WaitConfig.finalize c).allPresent = true := by
  simp [WaitConfig.finalize, WaitConfig.allPresent]

theorem excludesFinalize_allPresent (c : ExcludeConfigs) :
    ExcludeConfigs.allPresent (ExcludeConfigs.finalize c) = true := by
  induction c with
  | nil => rfl
  | cons e rest ih =>
    simp [ExcludeConfigs.finalize, ExcludeConfigs.allPresent] at ih ⊢

theorem prefixesFinalize_allPresent (c : PrefixConfigs) :
    PrefixConfigs.allPresent (PrefixConfigs.finalize c) = true := by
  induction c with
  | nil => rfl
  | cons e rest ih =>
    simp [PrefixConfigs.finalize, PrefixConfigs.allPresent] at ih ⊢

theorem finalize_consul_present (c : Config) (env : Env) (base : Nat) :
    optHolds (Config.finalize c env base).consul ConsulConfig.allPresent = true := by
  cases h : c.consul <;>
    simp [Config.finalize, h, optHolds, consulFinalize_allPresent]

theorem finalize_excludes_present (c : Config) (env : Env) (base : Nat) :
    optHolds (Config.finalize c env base).excludes ExcludeConfigs.allPresent = true := by
  cases h : c.excludes <;>
    simp [Config.finalize, h, optHolds, excludesFinalize_allPresent]

theorem finalize_killSignal_present (c : Config) (env : Env) (base : Nat) :
    (Config.finalize c env base).killSignal.isSome = true := by
  cases h : c.killSignal <;> simp [Config.finalize, h]

theorem finalize_logLevel_present (c : Config) (env : Env) (base : Nat) :
    (Config.finalize c env base).logLevel.isSome = true := by
  cases h : c.logLevel <;> simp [Config.finalize, h]

theorem finalize_maxStale_present (c : Config) (env : Env) (base : Nat) :
    (Config.finalize c env base).maxStale.isSome = true := by
  cases h : c.maxStale <;> simp [Config.finalize, h]

theorem finalize_pidFile_present (c : Config) (env : Env) (base : Nat) :
    (Config.finalize c env base).pidFile.isSome = true := by
  cases h : c.pidFile <;> simp [Config.finalize, h]

theorem finalize_prefixes_present (c : Config) (env : Env) (base : Nat) :
    optHolds (Config.finalize c env base).prefixes PrefixConfigs.allPresent = true := by
  cases h : c.prefixes <;>
    simp [Config.finalize, h, optHolds, prefixesFinalize_allPresent]

theorem finalize_reloadSignal_present (c : Config) (env : Env) (base : Nat) :
    (Config.finalize c env base).reloadSignal.isSome = true := by
  cases h : c.reloadSignal <;> simp [Config.finalize, h]

theorem finalize_statusDir_present (c : Config) (env : Env) (base : Nat) :
    (Config.finalize c env base).statusDir.isSome = true := by
  cases h : c.statusDir <;> simp [Config.finalize, h]

theorem finalize_syslog_present (c : Config) (env : Env) (base : Nat) :
    optHolds (Config.finalize c env base).syslog SyslogConfig.allPresent = true := by
  cases h : c.syslog <;>
    simp [Config.finalize, h, optHolds, syslogFinalize_allPresent]

theorem finalize_wait_present (c : Config) (env : Env) (base : Nat) :
    optHolds (Config.finalize c env base).wait WaitConfig.allPresent = true := by
  cases h : c.wait <;>
    simp [Config.finalize, h, optHolds, waitFinalize_allPresent]

theorem addr_of_map_mk {α β : Type} (o : Option (GoPtr α)) (f : α → β)
    (n : Nat) (p : GoPtr β)
    (h : o.map (fun q => GoPtr.mk n (f q.val)) = some p) : p.addr = n := by
  cases o with
  | none => simp at h
  | some q =>
    simp only [Option.map_some', Option.some.injEq] at h
    rw [← h]

/-! The claims. -/

/-- Claim C1, corrected: after Finalize, the eleven fields the body touches
are present — Consul, Excludes, KillSignal, LogLevel, MaxStale, PidFile,
Prefixes, ReloadSignal, StatusDir, Syslog and Wait, with every field of
every nested stanza present as well — but DestinationConsul is not among
them: Finalize never assigns it (src/config.go lines 235 to 291 do not
mention the field), so it is returned unchanged and in particular stays
absent on the zero value. -/
theorem C1_finalize_presence (c : Config) (env : Env) (base : Nat) :
    (Config.finalize c env base).isFullyPresent = true ∧
    (Config.finalize c env base).destinationConsul = c.destinationConsul := by
  refine ⟨?_, rfl⟩
  simp [Config.isFullyPresent, finalize_consul_present, finalize_excludes_present,
    finalize_killSignal_present, finalize_logLevel_present, finalize_maxStale_present,
    finalize_pidFile_present, finalize_prefixes_present, finalize_reloadSignal_present,
    finalize_statusDir_present, finalize_syslog_present, finalize_wait_present]

/-- Claim C1 counterexample: the claim lists DestinationConsul among the
fields that are present after Finalize, but finalizing the zero-value
Config leaves DestinationConsul absent, so the finalized object cannot be
dereferenced there. -/
theorem C1_cx_destinationConsul_absent :
    (Config.finalize emptyConfig envEmpty 0).destinationConsul = none := rfl

/-- Claim C2, corrected: Copy deep-copies the five nested stanzas — the
copies live at the fresh addresses base to base+4, none of which occurs
among the addresses of the original — and the copy always has
DestinationConsul absent; but the six scalar pointer fields (KillSignal,
LogLevel, MaxStale, PidFile, ReloadSignal, StatusDir) are copied as
pointers: the copy holds the very same GoPtr as the original, so the values
reachable through those pointers are shared by reference and an in-place
write through the copy would be visible in the original. -/
theorem C2_copy_aliases_scalars (c : Config) (base : Nat)
    (hfresh : ∀ a ∈ c.addrs, a < base) :
    ((c.copy base).killSignal = c.killSignal ∧
     (c.copy base).logLevel = c.logLevel ∧
     (c.copy base).maxStale = c.maxStale ∧
     (c.copy base).pidFile = c.pidFile ∧
     (c.copy base).reloadSignal = c.reloadSignal ∧
     (c.copy base).statusDir = c.statusDir) ∧
    ((c.copy base).consul = c.consul.map (fun p => GoPtr.mk base (ConsulConfig.copy p.val)) ∧
     (c.copy base).excludes = c.excludes.map (fun p => GoPtr.mk (base + 1) (ExcludeConfigs.copy p.val)) ∧
     (c.copy base).prefixes = c.prefixes.map (fun p => GoPtr.mk (base + 2) (PrefixConfigs.copy p.val)) ∧
     (c.copy base).syslog = c.syslog.map (fun p => GoPtr.mk (base + 3) (SyslogConfig.copy p.val)) ∧
     (c.copy base).wait = c.wait.map (fun p => GoPtr.mk (base + 4) (WaitConfig.copy p.val))) ∧
    ((∀ p, (c.copy base).consul = some p → p.addr ∉ c.addrs) ∧
     (∀ p, (c.copy base).excludes = some p → p.addr ∉ c.addrs) ∧
     (∀ p, (c.copy base).prefixes = some p → p.addr ∉ c.addrs) ∧
     (∀ p, (c.copy base).syslog = some p → p.addr ∉ c.addrs) ∧
     (∀ p, (c.copy base).wait = some p → p.addr ∉ c.addrs)) ∧
    (c.copy base).destinationConsul = none := by
  refine ⟨⟨rfl, rfl, rfl, rfl, rfl, rfl⟩, ⟨rfl, rfl, rfl, rfl, rfl⟩,
    ⟨?_, ?_, ?_, ?_, ?_⟩, rfl⟩ <;>
  · intro p hp hmem
    have haddr := addr_of_map_mk _ _ _ p hp
    have hlt := hfresh p.addr hmem
    omega

/-- Claim C2 witness: the theorem applied at a concrete Config (nested
stanza at address 3, log level pointer at address 7) with allocator base
100. -/
theorem C2_witness :
    (Config.copy cfgShared 100).logLevel = cfgShared.logLevel ∧
    ∀ p, (Config.copy cfgShared 100).consul = some p → p.addr ∉ cfgShared.addrs := by
  obtain ⟨hs, hn, hf, hd⟩ := C2_copy_aliases_scalars cfgShared 100 (by decide)
  exact ⟨hs.2.1, hf.1⟩

/-- Claim C2 counterexample: the copy of a concrete Config holds the very
same LogLevel pointer as the original (both point at address 7), refuting
the claim that no value reachable from the copy is shared by reference with
the original: an in-place write through the LogLevel pointer of the copy
would change the original. -/
theorem C2_cx_logLevel_shared :
    (Config.copy cfgShared 100).logLevel = cfgShared.logLevel ∧
    Option.map GoPtr.addr (Config.copy cfgShared 100).logLevel = some 7 ∧
    Option.map GoPtr.addr cfgShared.logLevel = some 7 := by decide

/-- Claim C5, corrected: Config.Copy on a nil receiver does not return nil.
Unlike Merge (src/config.go lines 123 to 132), the Copy body (lines 84 to
120) has no nil-receiver guard and immediately reads the Consul field of
the receiver, so the call dereferences the nil pointer and panics; on a
non-nil receiver it returns a pointer to a freshly allocated struct. -/
theorem C5_copy_nil_panics (base : Nat) :
    Config.copyP none base = Except.error nilDereferenceMsg ∧
    ∀ p : ConfigRef, Config.copyP (some p) base =
      Except.ok (some (GoPtr.mk base (p.val.copy (base + 1)))) :=
  ⟨rfl, fun _ => rfl⟩

/-- Claim C5 counterexample: Copy on the nil receiver does not evaluate to
nil — it dereferences the nil pointer. -/
theorem C5_cx_copy_nil_not_nil :
    Config.copyP none 0 ≠ Except.ok none := by
  simp [Config.copyP]

/-- Claim C10: DestinationConsul is ignored by Copy, Merge and Finalize —
every copy has it absent, every merge result has it absent, and Finalize
returns it unchanged (so a nil DestinationConsul stays nil) — and the
Consul and DestinationConsul struct fields carry the same mapstructure key,
consul, so markup cannot populate the two fields independently. -/
theorem C10_destinationConsul_ignored :
    (∀ (c : Config) (base : Nat), (c.copy base).destinationConsul = none) ∧
    (∀ (a b : Config) (base : Nat), (a.merge b base).destinationConsul = none) ∧
    (∀ (c : Config) (env : Env) (base : Nat),
      (Config.finalize c env base).destinationConsul = c.destinationConsul) ∧
    mapstructureKey ConfigField.consul = "consul" ∧
    mapstructureKey ConfigField.destinationConsul = "consul" :=
  ⟨fun _ _ => rfl, fun _ _ _ => rfl, fun _ _ _ => rfl, rfl, rfl⟩

/-- Claim C3, corrected: Merge is field-granular and right-biased for every
field except DestinationConsul. For the six scalar pointer fields a value
present on the right-hand side wins (the result takes the right-hand
pointer itself) and an absent one keeps the left-hand value; the nested
stanzas Consul, Syslog and Wait merge recursively (value-level, in freshly
allocated instances); the collection-valued Excludes and Prefixes are
wholesale-replaced by the right-hand value when present. DestinationConsul
does not obey the rule: the merge result always has it absent, whatever the
two sides hold. -/
theorem C3_merge_right_biased (a b : Config) (base : Nat) :
    ((∀ p, b.killSignal = some p → (Config.merge a b base).killSignal = some p) ∧
     (b.killSignal = none → (Config.merge a b base).killSignal = a.killSignal) ∧
     (∀ p, b.logLevel = some p → (Config.merge a b base).logLevel = some p) ∧
     (b.logLevel = none → (Config.merge a b base).logLevel = a.logLevel) ∧
     (∀ p, b.maxStale = some p → (Config.merge a b base).maxStale = some p) ∧
     (b.maxStale = none → (Config.merge a b base).maxStale = a.maxStale) ∧
     (∀ p, b.pidFile = some p → (Config.merge a b base).pidFile = some p) ∧
     (b.pidFile = none → (Config.merge a b base).pidFile = a.pidFile) ∧
     (∀ p, b.reloadSignal = some p → (Config.merge a b base).reloadSignal = some p) ∧
     (b.reloadSignal = none → (Config.merge a b base).reloadSignal = a.reloadSignal) ∧
     (∀ p, b.statusDir = some p → (Config.merge a b base).statusDir = some p) ∧
     (b.statusDir = none → (Config.merge a b base).statusDir = a.statusDir)) ∧
    ((∀ p, b.consul = some p →
       Option.map GoPtr.val (Config.merge a b base).consul =
         some (match Option.map GoPtr.val a.consul with
               | none => p.val
               | some av => ConsulConfig.merge av p.val)) ∧
     (b.consul = none →
       Option.map GoPtr.val (Config.merge a b base).consul =
         Option.map GoPtr.val a.consul) ∧
     (∀ p, b.syslog = some p →
       Option.map GoPtr.val (Config.merge a b base).syslog =
         some (match Option.map GoPtr.val a.syslog with
               | none => p.val
               | some av => SyslogConfig.merge av p.val)) ∧
     (b.syslog = none →
       Option.map GoPtr.val (Config.merge a b base).syslog =
         Option.map GoPtr.val a.syslog) ∧
     (∀ p, b.wait = some p →
       Option.map GoPtr.val (Config.merge a b base).wait =
         some (match Option.map GoPtr.val a.wait with
               | none => p.val
               | some av => WaitConfig.merge av p.val)) ∧
     (b.wait = none →
       Option.map GoPtr.val (Config.merge a b base).wait =
         Option.map GoPtr.val a.wait)) ∧
    ((∀ p, b.excludes = some p →
       Option.map GoPtr.val (Config.merge a b base).excludes = some p.val) ∧
     (b.excludes = none →
       Option.map GoPtr.val (Config.merge a b base).excludes =
         Option.map GoPtr.val a.excludes) ∧
     (∀ p, b.prefixes = some p →
       Option.map GoPtr.val (Config.merge a b base).prefixes = some p.val) ∧
     (b.prefixes = none →
       Option.map GoPtr.val (Config.merge a b base).prefixes =
         Option.map GoPtr.val a.prefixes)) ∧
    (Config.merge a b base).destinationConsul = none := by
  refine ⟨⟨?_, ?_, ?_, ?_, ?_, ?_, ?_, ?_, ?_, ?_, ?_, ?_⟩,
    ⟨?_, ?_, ?_, ?_, ?_, ?_⟩, ⟨?_, ?_, ?_, ?_⟩, rfl⟩
  · intro p hp; simp [Config.merge, hp]
  · intro hb; simp [Config.merge, Config.copy, hb]
  · intro p hp; simp [Config.merge, hp]
  · intro hb; simp [Config.merge, Config.copy, hb]
  · intro p hp; simp [Config.merge, hp]
  · intro hb; simp [Config.merge, Config.copy, hb]
  · intro p hp; simp [Config.merge, hp]
  · intro hb; simp [Config.merge, Config.copy, hb]
  · intro p hp; simp [Config.merge, hp]
  · intro hb; simp [Config.merge, Config.copy, hb]
  · intro p hp; simp [Config.merge, hp]
  · intro hb; simp [Config.merge, Config.copy, hb]
  · intro p hp
    cases ha : a.consul <;>
      simp [Config.merge, Config.copy, hp, ha, ConsulConfig.copy]
  · intro hb
    cases ha : a.consul <;>
      simp [Config.merge, Config.copy, hb, ha, ConsulConfig.copy]
  · intro p hp
    cases ha : a.syslog <;>
      simp [Config.merge, Config.copy, hp, ha, SyslogConfig.copy]
  · intro hb
    cases ha : a.syslog <;>
      simp [Config.merge, Config.copy, hb, ha, SyslogConfig.copy]
  · intro p hp
    cases ha : a.wait <;>
      simp [Config.merge, Config.copy, hp, ha, WaitConfig.copy]
  · intro hb
    cases ha : a.wait <;>
      simp [Config.merge, Config.copy, hb, ha, WaitConfig.copy]
  · intro p hp
    cases ha : a.excludes <;>
      simp [Config.merge, Config.copy, hp, ha, ExcludeConfigs.merge, ExcludeConfigs.copy]
  · intro hb
    cases ha : a.excludes <;>
      simp [Config.merge, Config.copy, hb, ha, ExcludeConfigs.copy]
  · intro p hp
    cases ha : a.prefixes <;>
      simp [Config.merge, Config.copy, hp, ha, PrefixConfigs.merge, PrefixConfigs.copy]
  · intro hb
    cases ha : a.prefixes <;>
      simp [Config.merge, Config.copy, hb, ha, PrefixConfigs.copy]

/-- Claim C3 witness: the theorem applied at two concrete Configs — the
right-hand kill signal wins, the absent right-hand log level keeps the
left-hand pointer, and the connection stanzas merge field by field. -/
theorem C3_witness :
    (Config.merge cfgA3 cfgB3 100).killSignal = some (GoPtr.mk 4 (15 : Signal)) ∧
    (Config.merge cfgA3 cfgB3 100).logLevel = cfgA3.logLevel ∧
    Option.map GoPtr.val (Config.merge cfgA3 cfgB3 100).consul =
      some { address := some "a:8500", token := some "t" } := by
  obtain ⟨⟨ksp, ksa, llp, lla, msp, msa, pfp, pfa, rsp, rsa, sdp, sda⟩,
    ⟨conp, cona, syp, sya, wp, wa⟩, hcoll, hdest⟩ :=
    C3_merge_right_biased cfgA3 cfgB3 100
  refine ⟨ksp _ rfl, lla rfl, ?_⟩
  have h := conp (GoPtr.mk 2 { address := none, token := some "t" }) rfl
  simpa [cfgA3, ConsulConfig.merge] using h

/-- Claim C3 counterexample: DestinationConsul is present on the right-hand
side of a concrete merge, yet the merge result does not take it — the
result has the field absent, refuting the claim for this field. -/
theorem C3_cx_destinationConsul_not_taken :
    cfgB3.destinationConsul.isSome = true ∧
    (Config.merge cfgA3 cfgB3 100).destinationConsul = none := by decide

/-- Claim C4, corrected: Merge on a nil receiver with a nil argument
returns nil; on a nil receiver with a non-nil argument it returns a copy of
the argument — a freshly allocated struct, not reference-equal to the
argument; on a non-nil receiver it returns a freshly allocated struct built
from a copy of the receiver with every field present in the argument
overwritten, except DestinationConsul, which the merge result always has
absent (the receiver itself is not mutated: the result is built from a
copy). -/
theorem C4_merge_nil_cases (cp op : ConfigRef) (base : Nat) :
    (Config.mergeP none none base = Except.ok none) ∧
    (Config.mergeP none (some op) base = Config.copyP (some op) base) ∧
    (Config.mergeP none (some op) base =
      Except.ok (some (GoPtr.mk base (op.val.copy (base + 1))))) ∧
    (op.addr ≠ base →
      ∀ r : ConfigRef, Config.mergeP none (some op) base = Except.ok (some r) →
        r.addr ≠ op.addr) ∧
    (Config.mergeP (some cp) (some op) base =
      Except.ok (some (GoPtr.mk base (cp.val.merge op.val (base + 1))))) ∧
    ((cp.val.merge op.val (base + 1)).destinationConsul = none) ∧
    ((∀ q, op.val.killSignal = some q →
       (cp.val.merge op.val (base + 1)).killSignal = some q) ∧
     (∀ q, op.val.logLevel = some q →
       (cp.val.merge op.val (base + 1)).logLevel = some q) ∧
     (∀ q, op.val.maxStale = some q →
       (cp.val.merge op.val (base + 1)).maxStale = some q) ∧
     (∀ q, op.val.pidFile = some q →
       (cp.val.merge op.val (base + 1)).pidFile = some q) ∧
     (∀ q, op.val.reloadSignal = some q →
       (cp.val.merge op.val (base + 1)).reloadSignal = some q) ∧
     (∀ q, op.val.statusDir = some q →
       (cp.val.merge op.val (base + 1)).statusDir = some q)) := by
  refine ⟨rfl, rfl, rfl, ?_, rfl, rfl, ⟨?_, ?_, ?_, ?_, ?_, ?_⟩⟩
  · intro hne r hr
    have : r = GoPtr.mk base (op.val.copy (base + 1)) := by
      simpa [Config.mergeP, Config.copyP] using hr.symm
    rw [this]
    exact fun hk => hne hk.symm
  · intro q hq; simp [Config.merge, hq]
  · intro q hq; simp [Config.merge, hq]
  · intro q hq; simp [Config.merge, hq]
  · intro q hq; simp [Config.merge, hq]
  · intro q hq; simp [Config.merge, hq]
  · intro q hq; simp [Config.merge, hq]

/-- Claim C4 witness: the theorem applied at two concrete Config pointers —
the merge of the nil receiver with the argument at address 1 yields a fresh
struct at address 100, and the kill signal present in the argument is taken
over. -/
theorem C4_witness :
    (GoPtr.mk 100 (refB4.val.copy 101)).addr ≠ refB4.addr ∧
    (Config.merge refA4.val refB4.val 101).killSignal =
      some (GoPtr.mk 5 (2 : Signal)) := by
  obtain ⟨h1, h2, h3, h4, h5, h6, hks, hll, hms, hpf, hrs, hsd⟩ :=
    C4_merge_nil_cases refA4 refB4 100
  exact ⟨h4 (by decide) _ h3, hks _ rfl⟩

/-- Claim C4 counterexample: the DestinationConsul instance present in the
argument is not carried into the merge result, refuting the clause that
every field present in the argument overwrites the copy of the receiver. -/
theorem C4_cx_destinationConsul_dropped :
    refB4.val.destinationConsul.isSome = true ∧
    Config.mergeP (some refA4) (some refB4) 100 =
      Except.ok (some (GoPtr.mk 100 (Config.merge refA4.val refB4.val 101))) ∧
    (Config.merge refA4.val refB4.val 101).destinationConsul = none := by
  refine ⟨by decide, rfl, by decide⟩

/-- Claim C9: when LogLevel is unset at Finalize time its value comes from
the first variable among CR_LOG and CONSUL_REPLICATE_LOG whose raw value is
non-empty, whitespace-trimmed; if neither is set the static default WARN is
used; and the environment is consulted only when the field is otherwise
unset — a present LogLevel pointer is returned untouched. -/
theorem C9_logLevel_from_env (c : Config) (env : Env) (base : Nat) :
    (c.logLevel = none →
      Option.map GoPtr.val (Config.finalize c env base).logLevel =
        some (stringFromEnv ["CR_LOG", "CONSUL_REPLICATE_LOG"] DefaultLogLevel env)) ∧
    (c.logLevel = none → env "CR_LOG" ≠ "" →
      Option.map GoPtr.val (Config.finalize c env base).logLevel =
        some (goTrimSpace (env "CR_LOG"))) ∧
    (c.logLevel = none → env "CR_LOG" = "" → env "CONSUL_REPLICATE_LOG" ≠ "" →
      Option.map GoPtr.val (Config.finalize c env base).logLevel =
        some (goTrimSpace (env "CONSUL_REPLICATE_LOG"))) ∧
    (c.logLevel = none → env "CR_LOG" = "" → env "CONSUL_REPLICATE_LOG" = "" →
      Option.map GoPtr.val (Config.finalize c env base).logLevel =
        some DefaultLogLevel) ∧
    (∀ p, c.logLevel = some p → (Config.finalize c env base).logLevel = some p) := by
  refine ⟨?_, ?_, ?_, ?_, ?_⟩
  · intro h
    simp [Config.finalize, h]
  · intro h h1
    simp [Config.finalize, h, stringFromEnv, h1]
  · intro h h1 h2
    simp [Config.finalize, h, stringFromEnv, h1, h2]
  · intro h h1 h2
    simp [Config.finalize, h, stringFromEnv, h1, h2]
  · intro p hp
    simp [Config.finalize, hp]

/-- Claim C9 witness: with CR_LOG set to DEBUG surrounded by whitespace the
finalized log level is DEBUG; with no variable set it is the static default
WARN. -/
theorem C9_witness :
    Option.map GoPtr.val (Config.finalize emptyConfig envDebugPadded 0).logLevel =
      some "DEBUG" ∧
    Option.map GoPtr.val (Config.finalize emptyConfig envEmpty 0).logLevel =
      some "WARN" := by
  obtain ⟨d1, d2, d3, d4, d5⟩ := C9_logLevel_from_env emptyConfig envDebugPadded 0
  obtain ⟨e1, e2, e3, e4, e5⟩ := C9_logLevel_from_env emptyConfig envEmpty 0
  constructor
  · have hd := d2 rfl (by decide)
    rw [hd]
    decide
  · have he := e4 rfl rfl rfl
    rw [he]
    rfl

/-- Claim C6, corrected: on every listed dotted key, a non-empty sequence
of mappings is replaced by its flattened last element (recursed into with
the dotted path as the new parent), an empty sequence becomes the explicit
absence marker while the key itself is kept, scalar values are left
unchanged, and unlisted keys pass through unchanged (keys are never added
or removed); however a mapping value at a listed key is not left unchanged:
the source recurses into it in place, flattening the listed stanza keys
inside it. -/
theorem C6_flatten_behaviour :
    (∀ (keys : List String) (parent : String) (m : GMap),
       (flattenMapGo keys parent m).keys = m.keys) ∧
    (∀ (keys : List String) (parent k : String) (v : GVal) (rest : GMap),
       mapKeyOf parent k ∉ keys →
       flattenMapGo keys parent (GMap.cons k v rest) =
         GMap.cons k v (flattenMapGo keys parent rest)) ∧
    (∀ (keys : List String) (mk : String) (s : GMapSeq) (mlast : GMap),
       s.getLast? = some mlast →
       flattenEntry keys mk (GVal.objList s) =
         GVal.obj (flattenMapGo keys mk mlast)) ∧
    (∀ (keys : List String) (mk : String),
       flattenEntry keys mk (GVal.objList GMapSeq.nil) = GVal.null) ∧
    (∀ (keys : List String) (mk s : String),
       flattenEntry keys mk (GVal.str s) = GVal.str s) ∧
    (∀ (keys : List String) (mk : String) (n : Int),
       flattenEntry keys mk (GVal.num n) = GVal.num n) ∧
    (∀ (keys : List String) (mk : String) (b : Bool),
       flattenEntry keys mk (GVal.boolV b) = GVal.boolV b) ∧
    (∀ (keys : List String) (mk : String),
       flattenEntry keys mk GVal.null = GVal.null) ∧
    (∀ (keys : List String) (mk : String) (t : GMap),
       flattenEntry keys mk (GVal.obj t) = GVal.obj (flattenMapGo keys mk t)) ∧
    (∀ (m : GMap) (keys : List String) (k : String), k ∉ keys →
       (flattenKeys m keys).lookup k = m.lookup k) := by
  refine ⟨flattenMapGo_keys, ?_, ?_, fun _ _ => rfl, fun _ _ _ => rfl,
    fun _ _ _ => rfl, fun _ _ _ => rfl, fun _ _ => rfl, fun _ _ _ => rfl, ?_⟩
  · intro keys parent k v rest h
    simp [flattenMapGo, h]
  · intro keys mk s mlast h
    simp [flattenEntry, flattenSeqLast_eq, h]
  · intro m keys k h
    rw [flattenKeys]
    exact flattenMapGo_lookup_notMem keys "" m k (by rw [mapKeyOf_top]; exact h)

/-- Claim C6 witness: the theorem applied at a concrete repeated retry
block (the flattened last element wins) and at a concrete unlisted key
(which passes through unchanged). -/
theorem C6_witness :
    flattenEntry flattenTargets "consul.retry" (GVal.objList retrySeqTwo) =
      GVal.obj (flattenMapGo flattenTargets "consul.retry" retryBlockTwo) ∧
    flattenMapGo flattenTargets "" (GMap.cons "other" (GVal.num 3) GMap.nil) =
      GMap.cons "other" (GVal.num 3) (flattenMapGo flattenTargets "" GMap.nil) := by
  obtain ⟨k1, k2, k3, k4, k5, k6, k7, k8, k9, k10⟩ := C6_flatten_behaviour
  exact ⟨k3 _ _ _ _ rfl, k2 _ _ _ _ _ (by decide)⟩

/-- Claim C6 counterexample: a mapping value at the listed key consul does
not pass through unchanged — the flattening recurses into it, so the
repeated retry block inside it collapses to its last element (observable
through the backoff probe, which reads 2s afterwards and nothing before). -/
theorem C6_cx_obj_value_rewritten :
    probeConsulRetryBackoff (flattenKeys mapConsulObj flattenTargets) = some "2s" ∧
    probeConsulRetryBackoff mapConsulObj = none :=
  ⟨rfl, rfl⟩

/-- Claim C7, corrected: binding is strict over the mapping the decoder
actually receives, that is, after the normalization rewrites: every key
surviving normalization that matches no destination field of the typed
Config makes the decode, and hence Parse, fail with an error naming that
key. The claim as stated over the raw input mapping fails, because the
deprecated top-level keys (auth, path, retry, ssl, token) also match no
destination field yet are rewritten away before binding instead of
failing. -/
theorem C7_strict_binding (m : GMap) (k : String) (v : GVal)
    (hk : (parseNormalize m).1.lookup k = some v)
    (hunknown : k ∉ configKeys) :
    ∃ ks, ParseModel m = Except.error ks ∧ k ∈ ks := by
  obtain ⟨ks, hb, hmem⟩ :=
    bindConfig_error_of_mem _ k (mem_unusedKeys _ k v hk hunknown)
  exact ⟨ks, by simp [ParseModel, hb], hmem⟩

/-- Claim C7 witness: the unrecognized top-level key bogus survives
normalization and makes Parse fail with an error naming bogus. -/
theorem C7_witness :
    ∃ ks, ParseModel bogusMap = Except.error ks ∧ "bogus" ∈ ks :=
  C7_strict_binding bogusMap "bogus" (GVal.num 1) rfl (by decide)

/-- Claim C7 counterexample: the top-level key retry corresponds to no
destination field of the typed Config, yet Parse accepts the mapping (the
deprecation pass relocates the key before binding) — refuting the claim as
stated, which demands a binding failure for every unknown key of the input
mapping. -/
theorem C7_cx_deprecated_retry_accepted :
    exceptIsOk (ParseModel retryOnlyMap) = true ∧ "retry" ∉ configKeys :=
  ⟨rfl, by decide⟩

/-- Claim C8: for every parsed mapping with a deprecated top-level retry
key, Parse deletes the top-level key, places under the consul stanza a
retry mapping whose backoff and max_backoff entries both hold the legacy
value, and emits exactly one retry compatibility warning. -/
theorem C8_retry_relocated (parsed : GMap) (v : GVal)
    (h : parsed.lookup "retry" = some v) :
    (parseNormalize parsed).1.lookup "retry" = none ∧
    (∃ cm, (parseNormalize parsed).1.lookup "consul" = some (GVal.obj cm) ∧
      cm.lookup "retry" =
        some (GVal.obj (GMap.cons "backoff" v (GMap.cons "max_backoff" v GMap.nil)))) ∧
    (parseNormalize parsed).2.count Warning.retry = 1 := by
  have h0 : (flattenKeys (flattenKeys parsed flattenTargets) ["auth", "ssl"]).lookup "retry"
      = some v := by
    rw [flattenKeys, flattenMapGo_lookup_notMem _ _ _ _ (by decide), flattenKeys,
      flattenMapGo_lookup_notMem _ _ _ _ (by decide)]
    exact h
  have h1 : ((authStep (flattenKeys (flattenKeys parsed flattenTargets)
      ["auth", "ssl"])).1).lookup "retry" = some v := by
    rw [authStep_lookup _ _ (by decide) (by decide)]
    exact h0
  have h2 : ((pathStep (authStep (flattenKeys (flattenKeys parsed flattenTargets)
      ["auth", "ssl"])).1).1).lookup "retry" = some v := by
    rw [pathStep_lookup _ _ (by decide)]
    exact h1
  obtain ⟨hr3, hc3, hw3⟩ := retryStep_fires _ v h2
  have hr4 := (sslStep_lookup_retry _).trans hr3
  obtain ⟨cm4, hc4, hcr4⟩ := sslStep_consul_retry _ _ _ hc3 (GMap.lookup_set_self _ _ _)
  have hr5 := (tokenStep_lookup_retry _).trans hr4
  obtain ⟨cm5, hc5, hcr5⟩ := tokenStep_consul_retry _ _ _ hc4 hcr4
  refine ⟨hr5, ⟨cm5, hc5, hcr5⟩, ?_⟩
  simp only [parseNormalize]
  rw [List.count_append, List.count_append, List.count_append, List.count_append,
    authStep_count_retry, pathStep_count_retry, hw3, sslStep_count_retry,
    tokenStep_count_retry]
  rfl

/-- Claim C8 witness: the theorem applied at a concrete mapping whose
top-level retry key holds the string 30s. -/
theorem C8_witness :
    (parseNormalize retryWitnessMap).1.lookup "retry" = none ∧
    (∃ cm, (parseNormalize retryWitnessMap).1.lookup "consul" = some (GVal.obj cm) ∧
      cm.lookup "retry" = some (GVal.obj (GMap.cons "backoff" (GVal.str "30s")
        (GMap.cons "max_backoff" (GVal.str "30s") GMap.nil)))) ∧
    (parseNormalize retryWitnessMap).2.count Warning.retry = 1 :=
  C8_retry_relocated retryWitnessMap (GVal.str "30s") rfl
